import Mathlib

/-!
Verification of the flight-tracker proximity engine
(`tracker-v2.mjs`, `tracker.mjs`, the FR24 client `api-fr24.mjs`,
`aircraft-db.mjs`) against its design specification.

Modelling conventions for the JavaScript source:
* JS numbers are modelled as `ℚ` (exact arithmetic; transcendental
  float computations are modelled over `ℝ` and kept separate).
* Timestamps (`Date.now()`, ISO strings used only for date arithmetic)
  are modelled as a single `ℚ` number of milliseconds.
* A JS string field that may be `null`/`undefined`/`''` is modelled as
  `String` with `""` standing for the falsy values, or as
  `Option String` where the code distinguishes `null` from `''`
  (object fields explicitly written as `x || null`).
* `Math.round` rounds half toward plus infinity: `⌊q + 1/2⌋`.
* JS `Array.prototype.sort` is stable (ES2019), modelled by
  `List.mergeSort`.
-/

/-- `Math.round`: round half toward plus infinity. -/
def jsRound (q : ℚ) : ℤ := ⌊q + 1/2⌋

/-- JS truthiness of a number (`0` is falsy; `NaN` is outside the model). -/
def numTruthy (q : ℚ) : Bool := q ≠ 0

/-- JS truthiness of a possibly-missing number (`null`/`undefined` falsy). -/
def optNumTruthy : Option ℚ → Bool
  | none => false
  | some q => numTruthy q

/-- JS `a || b` on numbers: `b` when `a` is falsy (`0`). -/
def orNum (a : ℚ) (b : ℚ) : ℚ := if a = 0 then b else a

/-- JS `a || b` where `a` is a possibly-missing number. -/
def orOptNum (a : Option ℚ) (b : ℚ) : ℚ :=
  match a with
  | none => b
  | some q => orNum q b

/-- JS `a || b` on strings: `b` when `a` is empty. -/
def orStr (a : String) (b : String) : String := if a = "" then b else a

/-- JS `a || b` where `a` is a possibly-missing string and the result may
be `null` (modelled `none`). -/
def orOptStr (a : Option String) (b : Option String) : Option String :=
  match a with
  | none => b
  | some s => if s = "" then b else some s

/-- `x || null` on a string field: `''` becomes `null`. -/
def ofStr (s : String) : Option String := if s = "" then none else some s

/-- JS falsiness of an optional string (`null`, `undefined` or `''`). -/
def optStrFalsy : Option String → Bool
  | none => true
  | some s => s = ""

/-- The character list of a string (all source strings are ASCII). -/
def chars (s : String) : List Char := s.data

/-- `String.prototype.toUpperCase` (ASCII). -/
def jsToUpper (s : String) : String := String.mk (s.data.map Char.toUpper)

/-- `String.prototype.toLowerCase` (ASCII). -/
def jsToLower (s : String) : String := String.mk (s.data.map Char.toLower)

/-- Whitespace removed by `String.prototype.trim`. -/
def jsIsWS (c : Char) : Bool := c = ' ' ∨ c = '\t' ∨ c = '\n' ∨ c = '\r'

/-- `String.prototype.trim`. -/
def jsTrim (s : String) : String :=
  String.mk (((s.data.dropWhile jsIsWS).reverse.dropWhile jsIsWS).reverse)

/-- `s.substring 0 n` / `s.slice 0 n` (ASCII). -/
def jsTake (s : String) (n : ℕ) : String := String.mk (s.data.take n)

/-- Regex class `[A-Z]`. -/
def isUpperAlpha (c : Char) : Bool := 'A' ≤ c ∧ c ≤ 'Z'

/-- Regex class `[0-9A-Z]`. -/
def isUpperAlphaNum (c : Char) : Bool := isUpperAlpha c ∨ c.isDigit

/-- `/^\d+$/`: the whole string is one or more digits. -/
def isAllDigits (s : String) : Bool := s.data ≠ [] ∧ s.data.all Char.isDigit

/-- `/^[A-Z]/`: the first character is an uppercase letter. -/
def startsUpperAlpha (s : String) : Bool :=
  match s.data with
  | [] => false
  | c :: _ => isUpperAlpha c

/-- `s.startsWith p` on the character model. -/
def strStarts (s p : String) : Bool := p.data.isPrefixOf s.data

-- ===========================================================================
-- api-fr24.mjs — Snapshot Filter
-- ===========================================================================

/-- One entry of the raw FR24 feed object: the array
`[icao, lat, lon, heading, alt, speed, squawk, radar, ac_type, reg,
timestamp, origin, dest, flight, on_ground, v_speed, callsign]`.
`arity` is the JS array's `length` (entries shorter than 17 are skipped as
metadata); `lat`/`lon` are `none` when the feed holds `null` there. -/
structure RawItem where
  icao : String
  lat : Option ℚ
  lon : Option ℚ
  heading : ℚ
  altitude : ℚ
  speed : ℚ
  squawk : String
  radar : String
  aircraftType : String
  registration : String
  timestamp : ℚ
  origin : String
  destination : String
  flightNumber : String
  onGround : Bool
  verticalRate : ℚ
  callsign : String
  arity : ℕ
deriving DecidableEq, Repr

/-- A parsed flight object as produced by `parseFR24Flights` (the record
literal at lines 156–174 of the client, plus the `distance` field set
before pushing). -/
structure Flight where
  icao : String
  lat : ℚ
  lon : ℚ
  heading : ℚ
  altitude : ℚ
  speed : ℚ
  squawk : String
  radar : String
  aircraftType : String
  registration : String
  timestamp : ℚ
  origin : String
  destination : String
  flightNumber : String
  onGround : Bool
  verticalRate : ℚ
  callsign : String
  distance : ℚ
deriving DecidableEq, Repr

/-- The loop body of `parseFR24Flights` for one feed entry: `none` when the
entry is skipped (metadata, grounded, missing/falsy coordinates, or
outside the radius), otherwise the flight object that is pushed.
`dist` stands for the floating-point `calculateDistance`. -/
def keepFlight (dist : ℚ → ℚ → ℚ → ℚ → ℚ) (centerLat centerLon radiusNm : ℚ)
    (it : RawItem) : Option Flight :=
  if it.arity < 17 then none
  else if it.onGround = true then none
  else
    match it.lat, it.lon with
    | some la, some lo =>
      if numTruthy la ∧ numTruthy lo then
        let d := dist centerLat centerLon la lo
        if d ≤ radiusNm then
          some
            { icao := it.icao, lat := la, lon := lo, heading := it.heading,
              altitude := it.altitude, speed := it.speed, squawk := it.squawk,
              radar := it.radar, aircraftType := it.aircraftType,
              registration := it.registration, timestamp := it.timestamp,
              origin := it.origin, destination := it.destination,
              flightNumber := it.flightNumber, onGround := it.onGround,
              verticalRate := it.verticalRate, callsign := it.callsign,
              distance := d }
        else none
      else none
    | some _, none => none
    | none, _ => none

/-- Comparator of the final `flights.sort((a, b) => a.distance - b.distance)`:
`a` sorts no later than `b` iff `a.distance ≤ b.distance`. -/
def byDistance (a b : Flight) : Bool := a.distance ≤ b.distance

/-- `parseFR24Flights`: keep the passing entries in feed order, then sort
ascending by distance (JS sort is stable). -/
def parseFR24Flights (dist : ℚ → ℚ → ℚ → ℚ → ℚ)
    (data : List RawItem) (centerLat centerLon radiusNm : ℚ) : List Flight :=
  (data.filterMap (keepFlight dist centerLat centerLon radiusNm)).mergeSort byDistance

/-- Outcome of the upstream `fetch` inside `fetchFR24Flights`. -/
inductive FetchOutcome (α : Type) where
  | ok (data : α)
  | fail
deriving DecidableEq, Repr

/-- `fetchFR24Flights`: on success, parse the feed; a network/HTTP error is
caught inside the function, logged, and turned into an empty list. -/
def fetchFR24Flights (dist : ℚ → ℚ → ℚ → ℚ → ℚ)
    (outcome : FetchOutcome (List RawItem))
    (lat lon radiusNm : ℚ) : List Flight :=
  match outcome with
  | .ok data => parseFR24Flights dist data lat lon radiusNm
  | .fail => []

-- ===========================================================================
-- api-fr24.mjs — calculateDistance (floating-point haversine, modelled on ℝ)
-- ===========================================================================

/-- `toRad`. -/
noncomputable def toRad (deg : ℝ) : ℝ := deg * (Real.pi / 180)

/-- `Math.atan2 y x`, as the argument of the complex number `x + y·i`. -/
noncomputable def jsAtan2 (y x : ℝ) : ℝ := Complex.arg (Complex.mk x y)

/-- The haversine central angle `c` computed by `calculateDistance`. -/
noncomputable def haversineAngle (lat1 lon1 lat2 lon2 : ℝ) : ℝ :=
  let dLat := toRad (lat2 - lat1)
  let dLon := toRad (lon2 - lon1)
  let a := Real.sin (dLat/2) * Real.sin (dLat/2) +
    Real.cos (toRad lat1) * Real.cos (toRad lat2) *
    Real.sin (dLon/2) * Real.sin (dLon/2)
  2 * jsAtan2 (Real.sqrt a) (Real.sqrt (1 - a))

/-- `calculateDistance`: Earth radius 3440.065 NM times the haversine
central angle. -/
noncomputable def calculateDistance (lat1 lon1 lat2 lon2 : ℝ) : ℝ :=
  let R : ℝ := 3440.065
  let dLat := toRad (lat2 - lat1)
  let dLon := toRad (lon2 - lon1)
  let a := Real.sin (dLat/2) * Real.sin (dLat/2) +
    Real.cos (toRad lat1) * Real.cos (toRad lat2) *
    Real.sin (dLon/2) * Real.sin (dLon/2)
  let c := 2 * jsAtan2 (Real.sqrt a) (Real.sqrt (1 - a))
  R * c

-- ===========================================================================
-- tracker-v2.mjs — identity resolution (getBestCallsign)
-- ===========================================================================

/-- The `badTypes` list of `getBestCallsign`: type codes that are not
acceptable as callsigns. -/
def badTypes : List String :=
  ["PC12", "DA42", "DA62", "PA28", "PA32", "C172", "C182", "C206", "C210",
   "C310", "C414", "C421", "BE36", "BE58", "BE20", "SR20", "SR22", "C25A",
   "C25B", "C56X", "E50P", "E55P", "FA50", "G100", "G200", "TBM7", "TBM8",
   "TBM9"]

/-- The inner `isValid` of `getBestCallsign`, with `ty` the (trimmed,
uppercased) aircraft type the candidate is compared against. -/
def isValidCallsign (ty cs : String) : Bool :=
  if cs = "" ∨ cs.data.length < 3 then false
  else if ¬ startsUpperAlpha cs then false
  else if isAllDigits cs then false
  else if ty ≠ "" ∧ cs = ty then false
  else if badTypes.contains cs then false
  else true

/-- The inner `isValidReg` of `getBestCallsign`: `/^N[0-9A-Z]+$/`. -/
def isValidReg (reg : String) : Bool :=
  decide (reg ≠ "") &&
    (match reg.data with
     | 'N' :: rest => decide (rest ≠ []) && rest.all isUpperAlphaNum
     | _ => false)

/-- `getBestCallsign` of `tracker-v2.mjs`: resolve the session identity from
callsign, registration and aircraft type. -/
def getBestCallsign (callsign registration aircraftType : String) : String :=
  let cs := jsToUpper (jsTrim callsign)
  let reg := jsToUpper (jsTrim registration)
  let ty := jsToUpper (jsTrim aircraftType)
  if isValidCallsign ty cs then cs
  else if isValidReg reg then reg
  else orStr cs (orStr reg "UNKNOWN")

-- ===========================================================================
-- Session records and the in-memory history map
-- ===========================================================================

/-- A `FlightSession`: the record stored in `flightHistory` per resolved
callsign. -/
structure FlightSession where
  callsign : String
  flightNumber : Option String
  aircraftType : Option String
  aircraftName : Option String
  origin : Option String
  destination : Option String
  icao : Option String
  registration : Option String
  firstSeen : ℚ
  lastSeen : ℚ
  duration : ℤ
  closestDistance : ℚ
  closestAltitude : ℚ
  closestSpeed : ℚ
  initialDistance : ℚ
  initialAltitude : ℚ
  initialSpeed : ℚ
deriving DecidableEq, Repr

/-- The `flightHistory` JS `Map`, keyed by callsign, in insertion order. -/
abbrev History := List (String × FlightSession)

/-- `Map.prototype.get`. -/
def hget : History → String → Option FlightSession
  | [], _ => none
  | (k', v) :: rest, k => if k' = k then some v else hget rest k

/-- `Map.prototype.set`: replace in place when the key exists, else append. -/
def hset : History → String → FlightSession → History
  | [], k, v => [(k, v)]
  | (k', v') :: rest, k, v =>
    if k' = k then (k, v) :: rest else (k', v') :: hset rest k v

/-- The `existing`-session branch of `trackFlight` (both trackers): update
last-seen and duration, replace the closest-* fields when the new distance
is strictly smaller, and fill route/type/identity fields first-write-wins. -/
def updateSession (now : ℚ) (f : Flight) (e : FlightSession) : FlightSession :=
  let e1 := { e with lastSeen := now,
                     duration := jsRound ((now - e.firstSeen) / 1000) }
  let e2 :=
    if f.distance < e1.closestDistance then
      { e1 with closestDistance := f.distance, closestAltitude := f.altitude,
                closestSpeed := f.speed }
    else e1
  { e2 with
    origin := if f.origin ≠ "" ∧ optStrFalsy e2.origin then some f.origin else e2.origin,
    destination := if f.destination ≠ "" ∧ optStrFalsy e2.destination then some f.destination else e2.destination,
    flightNumber := if f.flightNumber ≠ "" ∧ optStrFalsy e2.flightNumber then some f.flightNumber else e2.flightNumber,
    aircraftType := if f.aircraftType ≠ "" ∧ optStrFalsy e2.aircraftType then some f.aircraftType else e2.aircraftType,
    icao := if f.icao ≠ "" ∧ optStrFalsy e2.icao then some f.icao else e2.icao,
    registration := if f.registration ≠ "" ∧ optStrFalsy e2.registration then some f.registration else e2.registration }

/-- The new-session record of `trackFlight` (both trackers). FR24 flight
objects carry no `type` field, so `flight.aircraftType || flight.type || null`
reduces to `flight.aircraftType || null`. -/
def newSession (now : ℚ) (f : Flight) : FlightSession :=
  { callsign := f.callsign,
    flightNumber := ofStr f.flightNumber,
    aircraftType := ofStr f.aircraftType,
    aircraftName := none,
    origin := ofStr f.origin,
    destination := ofStr f.destination,
    icao := ofStr f.icao,
    registration := ofStr f.registration,
    firstSeen := now, lastSeen := now, duration := 0,
    closestDistance := f.distance, closestAltitude := f.altitude,
    closestSpeed := f.speed,
    initialDistance := f.distance, initialAltitude := f.altitude,
    initialSpeed := f.speed }

/-- `trackFlight` of `tracker-v2.mjs`: resolve the callsign (mutating the
flight object when it differs), then update the existing session or create
a new one unconditionally. Returns the (possibly relabelled) flight and the
new history; `saveFlightHistory` persists it as a side effect. -/
def trackFlight (now : ℚ) (flight : Flight) (h : History) : Flight × History :=
  let best := getBestCallsign flight.callsign flight.registration flight.aircraftType
  let f := { flight with callsign := best }
  match hget h f.callsign with
  | some e => (f, hset h f.callsign (updateSession now f e))
  | none => (f, hset h f.callsign (newSession now f))

/-- `trackFlight` of `tracker.mjs` (v1): keyed by the raw callsign, and a
new session is skipped when the flight's distance exceeds the configured
radius. -/
def trackFlightV1 (radiusNm now : ℚ) (flight : Flight) (h : History) : History :=
  match hget h flight.callsign with
  | some e => hset h flight.callsign (updateSession now flight e)
  | none =>
    if flight.distance > radiusNm then h
    else hset h flight.callsign (newSession now flight)

-- ===========================================================================
-- aircraft-db.mjs — identity enrichment
-- ===========================================================================

/-- What `lookupByICAO` returns for a database hit. -/
structure ICAOInfo where
  type : String
  registration : String
  manufacturer : String
  model : String
deriving DecidableEq, Repr

/-- The loaded OpenSky database, as a lookup function (the external
identity-enrichment collaborator's data). -/
abbrev AircraftDB := String → Option ICAOInfo

/-- `lookupByICAO`: `null` for a falsy address, else look up the
lowercased, trimmed hex address. -/
def lookupByICAO (db : AircraftDB) (icao : String) : Option ICAOInfo :=
  if icao = "" then none else db (jsTrim (jsToLower icao))

/-- The `TYPE_NAMES` table of `aircraft-db.mjs`. -/
def typeNames : List (String × String) :=
  [("A319", "A319"), ("A320", "A320"), ("A321", "A321"),
   ("A332", "A330"), ("A333", "A330"), ("A359", "A350"), ("A35K", "A350"),
   ("A388", "A380"),
   ("A20N", "A320"), ("A21N", "A321"),
   ("B38M", "737 MAX"), ("B738", "737"), ("B739", "737"),
   ("B752", "757"), ("B763", "767"), ("B772", "777"), ("B773", "777"),
   ("B77W", "777"),
   ("B788", "787"), ("B789", "787"), ("B78X", "787"),
   ("B744", "747"), ("B748", "747"),
   ("E75L", "E175"), ("E75S", "E175"), ("E190", "E190"), ("E195", "E195"),
   ("CRJ2", "CRJ"), ("CRJ7", "CRJ"), ("CRJ9", "CRJ"),
   ("C172", "C172"), ("C182", "C182"), ("C208", "Caravan"),
   ("C56X", "Citation"), ("CL60", "Challenger"), ("GLEX", "Global"),
   ("PC12", "PC-12"), ("SR22", "SR22"), ("BE20", "King Air"),
   ("GLF4", "Gulfstream"), ("GLF5", "Gulfstream"), ("GLF6", "Gulfstream"),
   ("FA7X", "Falcon"), ("FA8X", "Falcon"),
   ("B190", "Beech 1900"), ("SW4", "Metroliner"),
   ("DH8A", "Dash 8"), ("DH8B", "Dash 8"), ("DH8C", "Dash 8"),
   ("DH8D", "Dash 8 Q400"),
   ("AT75", "ATR-72"), ("AT76", "ATR-72"),
   ("BE36", "Bonanza"), ("PA31", "Navajo"), ("PA32", "Cherokee"),
   ("C25A", "Citation"), ("C25B", "Citation"), ("C25C", "Citation"),
   ("C680", "Citation"), ("C700", "Citation"), ("C750", "Citation")]

/-- `getAircraftName`: friendly name from the type code (`null` for a
falsy code, table hit, else the code itself). -/
def getAircraftName (typeCode : String) : Option String :=
  if typeCode = "" then none
  else
    let code := jsTrim (jsToUpper typeCode)
    some (orStr ((typeNames.lookup code).getD "") code)

/-- The `AIRLINE_CODES` table of `aircraft-db.mjs` (JS object literal
order; a repeated key keeps its first position and last value). -/
def airlineCodes : List (String × String) :=
  [("UAL", "UA"), ("AAL", "AA"), ("DAL", "DL"), ("SWA", "WN"),
   ("ASA", "AS"), ("JBU", "B6"), ("FFT", "F9"), ("NKS", "NK"),
   ("SKW", "OO"), ("ENY", "MQ"), ("RPA", "YX"), ("EDV", "9E"),
   ("AAY", "G4"), ("BAW", "BA"), ("VIR", "VS"), ("AFR", "AF"),
   ("DLH", "LH"), ("KLM", "KL"), ("ACA", "AC"), ("QFA", "QF"),
   ("CPA", "CX"), ("JAL", "JL"), ("ANA", "NH"), ("CES", "MU"),
   ("CSN", "CZ"), ("ETH", "ET"), ("UAE", "EK"), ("QTR", "QR"),
   ("BA", "BA"), ("LH", "LH"), ("AF", "AF"), ("KL", "KL"),
   ("GTI", "5Y"), ("ATN", "8C"), ("FDX", "FX"),
   ("UPS", "5X"), ("DHL", "D0"), ("ABX", "GB")]

/-- `getAirlineCode` of `aircraft-db.mjs`: `null` for a falsy callsign;
first matching table entry by callsign start; else the leading 2–3
uppercase letters (`/^([A-Z]{2,3})/`), else `cs.slice(0, 3)`. -/
def getAirlineCode (callsign : String) : Option String :=
  if callsign = "" then none
  else
    let cs := jsTrim (jsToUpper callsign)
    match airlineCodes.find? (fun p => strStarts cs p.1) with
    | some p => some p.2
    | none =>
      let lead := (cs.data.takeWhile isUpperAlpha).take 3
      if 2 ≤ lead.length then some (String.mk lead) else some (jsTake cs 3)

/-- The enriched flight object produced by `enrichFlight` of
`aircraft-db.mjs` (a copy of the flight plus enrichment fields). -/
structure EnrichedFlight where
  callsign : String
  flightNumber : String
  origin : String
  destination : String
  icao : String
  aircraftType : String
  registration : String
  lat : ℚ
  lon : ℚ
  distance : ℚ
  altitude : ℚ
  speed : ℚ
  manufacturer : Option String
  model : Option String
  aircraftName : Option String
  airlineCode : Option String
deriving DecidableEq, Repr

/-- `enrichFlight` of `aircraft-db.mjs`. -/
def enrichFlight (db : AircraftDB) (f : Flight) : EnrichedFlight :=
  let info := if f.icao ≠ "" then lookupByICAO db f.icao else none
  let aT := match info with
    | some i => orStr f.aircraftType i.type
    | none => f.aircraftType
  let reg := match info with
    | some i => orStr i.registration f.registration
    | none => f.registration
  { callsign := f.callsign, flightNumber := f.flightNumber,
    origin := f.origin, destination := f.destination, icao := f.icao,
    aircraftType := aT, registration := reg,
    lat := f.lat, lon := f.lon, distance := f.distance,
    altitude := f.altitude, speed := f.speed,
    manufacturer := info.map (fun i => i.manufacturer),
    model := info.map (fun i => i.model),
    aircraftName := if aT ≠ "" then getAircraftName aT else none,
    airlineCode :=
      if f.callsign ≠ "" ∨ f.flightNumber ≠ "" then
        getAirlineCode (orStr f.callsign f.flightNumber)
      else none }

-- ===========================================================================
-- tracker-v2.mjs — Active Path Buffer
-- ===========================================================================

/-- An `AircraftSnapshot` stored in `activeFlightPath` (the record literal
of `recordPathSnapshot`). FR24 flights carry `heading`, not `track`, so
the snapshot's `track` field is always `undefined` (`none`). -/
structure Snapshot where
  timestamp : ℚ
  callsign : String
  lat : ℚ
  lon : ℚ
  distance : ℚ
  altitude : ℚ
  speed : ℚ
  track : Option ℚ
  aircraftType : String
  aircraftName : Option String
  manufacturer : Option String
  origin : String
  destination : String
  icao : String
  registration : String
deriving DecidableEq, Repr

/-- The snapshot object built by `recordPathSnapshot`. -/
def mkSnapshot (db : AircraftDB) (now : ℚ) (f : Flight) : Snapshot :=
  let enr := enrichFlight db f
  { timestamp := now, callsign := f.callsign, lat := f.lat, lon := f.lon,
    distance := f.distance, altitude := f.altitude, speed := f.speed,
    track := none,
    aircraftType := orStr enr.aircraftType f.aircraftType,
    aircraftName := enr.aircraftName, manufacturer := enr.manufacturer,
    origin := f.origin, destination := f.destination,
    icao := f.icao, registration := f.registration }

/-- `recordPathSnapshot`: push the enriched snapshot; when the buffer
exceeds 100 entries, `shift()` evicts the oldest one. -/
def recordPathSnapshot (db : AircraftDB) (now : ℚ) (f : Flight)
    (path : List Snapshot) : List Snapshot :=
  let p := path ++ [mkSnapshot db now f]
  if 100 < p.length then p.tail else p

-- ===========================================================================
-- tracker-v2.mjs — classification, formatting, proximity helpers
-- ===========================================================================

/-- The engine's configuration (`CONFIG`): zone center and detection
radius in nautical miles. -/
structure Config where
  lat : ℚ
  lon : ℚ
  radiusNm : ℚ
deriving DecidableEq, Repr

/-- `getAircraftType` display table of `tracker-v2.mjs`. -/
def aircraftTypeTable : List (String × String) :=
  [("A319", "A319"), ("A320", "A320"), ("A321", "A321"),
   ("A332", "A333"), ("A333", "A333"), ("A359", "A359"),
   ("B38M", "7MAX"), ("B738", "B738"), ("B739", "B739"),
   ("B752", "B752"), ("B763", "B763"), ("B772", "B772"),
   ("B788", "B788"), ("B789", "B789"),
   ("E75L", "E75L"), ("CRJ7", "CRJ7"),
   ("A20N", "A20N"), ("A21N", "A21N"),
   ("BCS1", "A220"), ("BCS3", "A223"),
   ("PC12", "PC12"), ("C56X", "C56X"),
   ("GLF4", "GLF4"), ("GLF5", "GLF5"), ("GLF6", "GLF6"),
   ("C680", "C680"), ("CL60", "CL60"), ("FA50", "FA50"),
   ("E135", "E135"), ("E145", "E145"), ("E170", "E170"), ("E190", "E190")]

/-- `getAircraftType` of `tracker-v2.mjs`: table hit, else the first four
characters of a truthy code, else `?`. -/
def getAircraftType (typeCode : Option String) : String :=
  let tc := typeCode.getD ""
  match aircraftTypeTable.lookup tc with
  | some v => v
  | none => if tc ≠ "" then jsTake tc 4 else "?"

/-- `/^N[0-9]/`. -/
def matchNdigit : List Char → Bool
  | 'N' :: c :: _ => c.isDigit
  | _ => false

/-- `/^C-[FG]/`. -/
def matchCdashFG : List Char → Bool
  | 'C' :: '-' :: c :: _ => c = 'F' ∨ c = 'G'
  | _ => false

/-- The regex matching a callsign that starts with the two characters
`G` `-`. -/
def matchGdash : List Char → Bool
  | 'G' :: '-' :: _ => true
  | _ => false

/-- `/^[A-Z]{3}[0-9]/`. -/
def matchAAAdigit : List Char → Bool
  | a :: b :: c :: d :: _ => isUpperAlpha a && isUpperAlpha b && isUpperAlpha c && d.isDigit
  | _ => false

/-- `/^[A-Z]{2}[0-9]/`. -/
def matchAAdigit : List Char → Bool
  | a :: b :: c :: _ => isUpperAlpha a && isUpperAlpha b && c.isDigit
  | _ => false

/-- The general-aviation type codes of `detectFlightType`. -/
def gaTypes : List String :=
  ["C172", "C182", "C208", "SR22", "PC12", "BE20", "BE36", "PA31", "PA32",
   "C56X", "CL60", "GLEX", "GLF4", "GLF5", "GLF6", "FA7X", "FA8X",
   "C25A", "C25B", "C25C", "C680", "C700", "C750"]

/-- `detectFlightType` of `tracker-v2.mjs`: commercial / private / unknown. -/
def detectFlightType (callsign aircraftType : String) : String :=
  if callsign = "" then "unknown"
  else
    let cs := jsToUpper callsign
    if gaTypes.contains (jsToUpper aircraftType) then "private"
    else if matchNdigit cs.data then "private"
    else if matchCdashFG cs.data then "private"
    else if matchGdash cs.data then "private"
    else if matchAAAdigit cs.data then "commercial"
    else if matchAAdigit cs.data then "commercial"
    else "unknown"

/-- `Number.prototype.toFixed(1)` (round to nearest tenth, ties toward
plus infinity). -/
def toFixed1 (q : ℚ) : String :=
  let n : ℤ := ⌊q * 10 + 1/2⌋
  let sign := if n < 0 then "-" else ""
  sign ++ toString (n.natAbs / 10) ++ "." ++ toString (n.natAbs % 10)

/-- The formatted flight data (`formatFlight`'s return record).
`speedKt` is `Math.round(speed)` or the string `'?'` (modelled `none`). -/
structure FormattedFlight where
  airlineCode : Option String
  distNm : String
  distanceRaw : ℚ
  flightType : String
  route : String
  altKft : String
  speedKt : Option ℤ
  aircraftType : String
  enriched : EnrichedFlight
deriving DecidableEq, Repr

/-- `formatFlight` of `tracker-v2.mjs`. -/
def formatFlight (db : AircraftDB) (f : Flight) : FormattedFlight :=
  let enr := enrichFlight db f
  let route :=
    if enr.origin ≠ "" ∧ enr.destination ≠ "" then
      enr.origin ++ "→" ++ enr.destination
    else "UNKNOWN"
  let fullFlightNum := orStr enr.flightNumber enr.callsign
  let airlineCodeRaw := orOptStr enr.airlineCode (getAirlineCode fullFlightNum)
  { airlineCode := airlineCodeRaw,
    distNm := if enr.distance ≠ 0 then toFixed1 enr.distance else "?",
    distanceRaw := orNum enr.distance 0,
    flightType := detectFlightType enr.callsign enr.aircraftType,
    route := route,
    altKft := if enr.altitude ≠ 0 then toFixed1 (enr.altitude / 1000) else "?",
    speedKt := if enr.speed ≠ 0 then some (jsRound enr.speed) else none,
    aircraftType := orStr enr.aircraftType "?",
    enriched := enr }

/-- `getProximityColor`: hex color by proximity tier. -/
def getProximityColor (cfg : Config) (distanceNm : ℚ) : String :=
  let r := cfg.radiusNm
  if distanceNm < r * 0.43 then "#FF0000"
  else if distanceNm < r * 0.71 then "#FFA500"
  else "#00D9FF"

/-- `getProximityColorRGB`: the same tiers as RGB triples. -/
def getProximityColorRGB (cfg : Config) (distanceNm : ℚ) : ℕ × ℕ × ℕ :=
  let r := cfg.radiusNm
  if distanceNm < r * 0.43 then (255, 0, 0)
  else if distanceNm < r * 0.71 then (255, 165, 0)
  else (0, 217, 255)

/-- `getProximityProgress`: progress-bar fill from the distance. -/
def getProximityProgress (cfg : Config) (distanceNm : ℚ) : ℤ :=
  let clamped := max 0 (min cfg.radiusNm distanceNm)
  jsRound ((1 - clamped / cfg.radiusNm) * 100)

-- ===========================================================================
-- tracker-v2.mjs — screens and the rotation engine
-- ===========================================================================

/-- A declarative AWTRIX custom-app payload (the fields the three screen
builders emit). -/
structure Payload where
  text : String
  icon : Option String := none
  pushIcon : Option ℕ := none
  color : Option String := none
  gradient : Option (String × String) := none
  rainbow : Bool := false
  progress : Option ℤ := none
  progressC : Option (ℕ × ℕ × ℕ) := none
  progressBC : Option (ℕ × ℕ × ℕ) := none
  noScroll : Bool := true
  lifetime : ℕ := 30
deriving DecidableEq, Repr

/-- Screen 1 (distance, proximity color, progress bar). -/
def buildScreen1Distance (cfg : Config) (data : FormattedFlight) : Payload :=
  { text := data.distNm,
    icon := some (if data.flightType = "private" then "helicopter" else "plane"),
    pushIcon := some 2,
    color := some (getProximityColor cfg data.distanceRaw),
    progress := some (getProximityProgress cfg data.distanceRaw),
    progressC := some (getProximityColorRGB cfg data.distanceRaw),
    progressBC := some (30, 30, 30) }

/-- `data.route.split('→')` destructured to `[departure, arrival]`. -/
def splitRoute (route : String) : String × String :=
  if route ≠ "UNKNOWN" then
    match route.data.splitOn '→' with
    | a :: b :: _ => (String.mk a, String.mk b)
    | [a] => (String.mk a, "undefined")
    | [] => ("undefined", "undefined")
  else ("?", "?")

/-- Screen 2 (route with gradient). -/
def buildScreen2Route (data : FormattedFlight) : Payload :=
  let pr := splitRoute data.route
  { text := pr.1 ++ "-" ++ pr.2,
    pushIcon := some 1,
    gradient := some ("#00D9FF", "#FFD700") }

/-- Screen 3 (airline + type; rainbow for commercial, gold otherwise).
A `null` airline code renders as the string `null` in the template
literal. -/
def buildScreen3FlightID (data : FormattedFlight) : Payload :=
  let code := match data.airlineCode with
    | some s => s
    | none => "null"
  let base : Payload :=
    { text := code ++ data.aircraftType,
      icon := some (if data.flightType = "private" then "helicopter" else "plane"),
      pushIcon := some 2 }
  if data.flightType = "commercial" then { base with rainbow := true }
  else { base with color := some "#FFD700" }

/-- The live display state: the rotation `setInterval` handle (with a
fresh-id counter so distinct timers are distinguishable), the current
screen index and the latest formatted flight data. -/
structure DisplayState where
  timer : Option ℕ
  nextTimerId : ℕ
  currentScreenIndex : ℕ
  latestFlightData : Option FormattedFlight
deriving DecidableEq, Repr

/-- The module-level initial display state. -/
def initialDisplay : DisplayState :=
  { timer := none, nextTimerId := 0, currentScreenIndex := 0,
    latestFlightData := none }

/-- `builders[currentScreenIndex]` (the index is always 0–2). -/
def screenBuilders (cfg : Config) : ℕ → FormattedFlight → Payload
  | 0 => buildScreen1Distance cfg
  | 1 => fun d => buildScreen2Route d
  | _ => buildScreen3FlightID

/-- `sendCurrentScreen`: render the current screen from the latest data
(no-op when there is none); the emitted payloads model the device calls. -/
def sendCurrentScreen (cfg : Config) (ds : DisplayState) : List Payload :=
  match ds.latestFlightData with
  | none => []
  | some d => [screenBuilders cfg ds.currentScreenIndex d]

/-- `startScreenRotation`: store the latest data and reset the screen
index; when a rotation timer is already running return at once (the timer
continues), otherwise send the first screen and start a new interval
timer. -/
def startScreenRotation (cfg : Config) (data : FormattedFlight)
    (ds : DisplayState) : DisplayState × List Payload :=
  let ds1 := { ds with latestFlightData := some data, currentScreenIndex := 0 }
  match ds.timer with
  | some _ => (ds1, [])
  | none =>
    let evs := sendCurrentScreen cfg ds1
    ({ ds1 with timer := some ds.nextTimerId, nextTimerId := ds.nextTimerId + 1 },
     evs)

/-- One firing of the rotation interval timer: advance the screen index
modulo 3 and send that screen. -/
def rotationTick (cfg : Config) (ds : DisplayState) : DisplayState × List Payload :=
  match ds.timer with
  | none => (ds, [])
  | some _ =>
    let ds1 := { ds with currentScreenIndex := (ds.currentScreenIndex + 1) % 3 }
    (ds1, sendCurrentScreen cfg ds1)

/-- `stopScreenRotation`: cancel the interval timer, drop the latest data,
reset the screen index (and clear the custom app on the device). -/
def stopScreenRotation (ds : DisplayState) : DisplayState :=
  { ds with timer := none, latestFlightData := none, currentScreenIndex := 0 }

-- ===========================================================================
-- tracker-v2.mjs — Export Throttle (exportWebData) and engine state
-- ===========================================================================

/-- The projection written to `flights-web.json` when flight data exists
(field-for-field the `webData` object literal; string timestamps are the
modelled `ℚ` instants; `exportedAt` is the top-level `timestamp` field). -/
structure WebData where
  distance : ℚ
  altitude : ℤ
  speed : ℤ
  timestamp : ℚ
  lat : ℚ
  lon : ℚ
  precision : String
  callsign : String
  aircraftTypeDisplay : String
  origin : Option String
  destination : Option String
  firstSeen : ℚ
  overheadScore : ℚ
  isOverhead : Bool
  pathSnapshots : ℕ
  status : String
  exportedAt : ℚ
deriving DecidableEq, Repr

/-- The document in the external export store: the waiting stub or the
full projection. -/
inductive ExportDoc where
  | waiting (timestamp : ℚ)
  | data (d : WebData)
deriving DecidableEq, Repr

/-- The whole mutable module state of `tracker-v2.mjs` that the claims
concern (`lastFlightCallsign`, `flightHistory`, `activeFlightPath`,
`lastWebExport`, `lastFlightSeen`, the display-rotation state, and the
current content of the export store). -/
structure TrackerState where
  lastFlightCallsign : Option String
  flightHistory : History
  activeFlightPath : List Snapshot
  lastWebExport : ℚ
  lastFlightSeen : Option ℚ
  display : DisplayState
  webStore : Option ExportDoc
deriving DecidableEq, Repr

/-- The `closestFlight` object inside `exportWebData`: either an aliased
path snapshot or the record synthesized from a history entry (which lacks
`speed`, `registration` and `type`). -/
structure ClosestRec where
  distance : ℚ
  altitude : ℚ
  lat : ℚ
  lon : ℚ
  timestamp : ℚ
  callsign : String
  aircraftType : String
  origin : String
  destination : String
  speed : Option ℚ
  registration : String
deriving DecidableEq, Repr

/-- The `activeFlightPath` scan of `exportWebData`: the first snapshot of
strictly minimal distance, with its index (`minDistance` starts at
`Infinity`, so the first entry is always selected). -/
def scanClosest (path : List Snapshot) : Option (ℕ × Snapshot) :=
  path.enum.foldl
    (fun acc is =>
      match acc with
      | none => some is
      | some jm => if is.2.distance < jm.2.distance then some is else acc)
    none

/-- The `flightHistory` fallback scan: the first session of strictly
minimal closest distance. -/
def historyClosest (h : History) : Option FlightSession :=
  h.foldl
    (fun acc kv =>
      match acc with
      | none => some kv.2
      | some m => if kv.2.closestDistance < m.closestDistance then some kv.2 else acc)
    none

/-- Overwrite the callsign of the path entry at index `i` (the JS code
mutates the aliased snapshot object in place). -/
def setCallsignAt : List Snapshot → ℕ → String → List Snapshot
  | [], _, _ => []
  | s :: rest, 0, c => { s with callsign := c } :: rest
  | s :: rest, i + 1, c => s :: setCallsignAt rest i c

/-- The tail of `exportWebData` once a `closestFlight` exists: precision
tier, speed/type selection, callsign re-resolution (mutating the aliased
path snapshot at `aliasIdx` when the resolution differs), and the
projection written to the store. -/
def exportBuild (flightJustLeft : Bool) (now : ℚ) (st : TrackerState)
    (aliasIdx : Option ℕ) (cf0 : ClosestRec) : TrackerState × ExportDoc :=
  let path := st.activeFlightPath
  let precision :=
    if 3 ≤ path.length then "high"
    else if 0 < path.length then "tracked"
    else "estimated"
  let closestSnapshot := path.find? (fun s => s.distance = cf0.distance)
  let speedSel := orOptNum (closestSnapshot.map (fun s => s.speed))
    (orOptNum cf0.speed 0)
  let aTsel : Option String :=
    orOptStr (closestSnapshot.bind (fun s => s.aircraftName))
      (orOptStr (closestSnapshot.map (fun s => s.aircraftType))
        (ofStr cf0.aircraftType))
  let best := getBestCallsign cf0.callsign cf0.registration (aTsel.getD "")
  let mutated := best ≠ cf0.callsign
  let cf := if mutated then { cf0 with callsign := best } else cf0
  let path2 :=
    if mutated then
      match aliasIdx with
      | some i => setCallsignAt path i best
      | none => path
    else path
  let historyEntry := hget st.flightHistory cf.callsign
  let firstSeen := orOptNum (historyEntry.map (fun e => e.firstSeen))
    (orNum cf.timestamp now)
  let wd : WebData :=
    { distance := (jsRound (cf.distance * 100) : ℚ) / 100,
      altitude := jsRound cf.altitude,
      speed := jsRound speedSel,
      timestamp := orNum cf.timestamp now,
      lat := cf.lat, lon := cf.lon,
      precision := precision,
      callsign := orStr cf.callsign (orStr (st.lastFlightCallsign.getD "") "UNKNOWN"),
      aircraftTypeDisplay :=
        orStr (getAircraftType aTsel) (orStr (aTsel.getD "") "Unknown"),
      origin := orOptStr (ofStr cf.origin)
        (orOptStr (closestSnapshot.map (fun s => s.origin)) none),
      destination := orOptStr (ofStr cf.destination)
        (orOptStr (closestSnapshot.map (fun s => s.destination)) none),
      firstSeen := firstSeen,
      overheadScore := (jsRound (cf.distance * 100) : ℚ) / 100,
      isOverhead := decide (cf.distance < 1),
      pathSnapshots := path.length,
      status := if flightJustLeft then "completed" else "tracking",
      exportedAt := now }
  ({ st with activeFlightPath := path2, webStore := some (.data wd) }, .data wd)

/-- The body of `exportWebData` past the throttle check: stamp
`lastWebExport`, pick the closest known record (active path first, then
durable history), and write the projection (or the waiting stub). -/
def exportCore (cfg : Config) (flightJustLeft : Bool) (now : ℚ)
    (st0 : TrackerState) : TrackerState × ExportDoc :=
  let st := { st0 with lastWebExport := now }
  match scanClosest st.activeFlightPath with
  | some im =>
    let snap := im.2
    exportBuild flightJustLeft now st (some im.1)
      { distance := snap.distance, altitude := snap.altitude,
        lat := snap.lat, lon := snap.lon, timestamp := snap.timestamp,
        callsign := snap.callsign, aircraftType := snap.aircraftType,
        origin := snap.origin, destination := snap.destination,
        speed := some snap.speed, registration := snap.registration }
  | none =>
    match historyClosest st.flightHistory with
    | some f =>
      exportBuild flightJustLeft now st none
        { distance := f.closestDistance, altitude := f.closestAltitude,
          lat := cfg.lat, lon := cfg.lon, timestamp := f.lastSeen,
          callsign := f.callsign, aircraftType := f.aircraftType.getD "",
          origin := f.origin.getD "", destination := f.destination.getD "",
          speed := none, registration := "" }
    | none =>
      ({ st with webStore := some (.waiting now) }, .waiting now)

/-- `exportWebData(flightJustLeft)`: suppressed (no write, no state
change) when the last export was less than 5000 ms ago and the flag is
false; otherwise the export is performed. The second component is the
document written, `none` when throttled. -/
def exportWebData (cfg : Config) (flightJustLeft : Bool) (now : ℚ)
    (st : TrackerState) : TrackerState × Option ExportDoc :=
  if ¬ flightJustLeft ∧ now - st.lastWebExport < 5000 then (st, none)
  else
    let r := exportCore cfg flightJustLeft now st
    (r.1, some r.2)

-- ===========================================================================
-- tracker-v2.mjs — the poll-cycle body of run()
-- ===========================================================================

/-- Comparator of the run-loop sort
`(a.distance || 999) - (b.distance || 999)` (a falsy distance counts
as 999). -/
def byDistanceOr999 (a b : Flight) : Bool :=
  orNum a.distance 999 ≤ orNum b.distance 999

/-- The session teardown shared by the two flight-gone branches of the
run loop: forced export, path cleared, callsign cleared, rotation stopped
and the display cleared. -/
def zoneClear (cfg : Config) (now : ℚ) (setSeen : Bool)
    (st : TrackerState) : TrackerState :=
  let st1 := (exportWebData cfg true now st).1
  { st1 with
    activeFlightPath := [],
    lastFlightCallsign := none,
    lastFlightSeen := if setSeen then some now else st1.lastFlightSeen,
    display := stopScreenRotation st1.display }

/-- One iteration of the `while (isRunning)` poll loop of
`tracker-v2.mjs`, from the fetch to the display update. `db` is the
loaded aircraft database and `dist` the distance function of the FR24
client. -/
def pollCycle (cfg : Config) (db : AircraftDB) (dist : ℚ → ℚ → ℚ → ℚ → ℚ)
    (now : ℚ) (outcome : FetchOutcome (List RawItem))
    (st : TrackerState) : TrackerState :=
  let flights := fetchFR24Flights dist outcome cfg.lat cfg.lon cfg.radiusNm
  if flights.isEmpty then
    match st.lastFlightCallsign with
    | some _ => zoneClear cfg now true st
    | none => st
  else
    match flights.mergeSort byDistanceOr999 with
    | [] => st
    | closest0 :: _ =>
      let tr := trackFlight now closest0 st.flightHistory
      let closest := tr.1
      let st1 := { st with flightHistory := tr.2,
                           activeFlightPath :=
                             recordPathSnapshot db now closest st.activeFlightPath }
      let st2 := (exportWebData cfg false now st1).1
      let isCloseFlight := decide (closest.distance ≤ cfg.radiusNm)
      let st3 := { st2 with lastFlightSeen := some now }
      if ¬ isCloseFlight then
        match st3.lastFlightCallsign with
        | some _ => zoneClear cfg now false st3
        | none => st3
      else
        let data := formatFlight db closest
        let st4 :=
          if st3.lastFlightCallsign ≠ some closest.callsign then
            { st3 with lastFlightCallsign := some closest.callsign,
                       activeFlightPath :=
                         match st3.activeFlightPath.getLast? with
                         | some s => [s]
                         | none => [] }
          else st3
        { st4 with display := (startScreenRotation cfg data st4.display).1 }

-- ===========================================================================
-- Specification-side definitions (for refinement comparison) and
-- concrete example inputs
-- ===========================================================================

/-- The spec's proximity tiers A/B/C. -/
inductive ProximityTier where
  | A
  | B
  | C
deriving DecidableEq, Repr

/-- Modelled from the spec's words: tier A when `distance < 0.43·r`,
tier B when `distance < 0.71·r`, tier C otherwise. -/
def specProximityTier (r d : ℚ) : ProximityTier :=
  if d < 0.43 * r then .A else if d < 0.71 * r then .B else .C

/-- The fixed color of each tier. -/
def tierColor : ProximityTier → String
  | .A => "#FF0000"
  | .B => "#FFA500"
  | .C => "#00D9FF"

/-- The fixed RGB triple of each tier. -/
def tierRGB : ProximityTier → ℕ × ℕ × ℕ
  | .A => (255, 0, 0)
  | .B => (255, 165, 0)
  | .C => (0, 217, 255)

/-- Modelled from the spec's words: progress-bar fill
`round((1 − clamp(distance, 0, r)/r) × 100)` with
`clamp(d, lo, hi) = min (max d lo) hi`. -/
def specProgress (r d : ℚ) : ℤ :=
  jsRound ((1 - min (max d 0) r / r) * 100)

/-- A sequence of `trackFlight` updates applied to a history (each entry
an observation instant and the flight observed then). -/
def runUpdates (upds : List (ℚ × Flight)) (h : History) : History :=
  upds.foldl (fun acc tf => (trackFlight tf.1 tf.2 acc).2) h

/-- Two snapshots that agree on every field except possibly `callsign`. -/
def sameExceptCallsign (s s' : Snapshot) : Prop :=
  s'.timestamp = s.timestamp ∧ s'.lat = s.lat ∧ s'.lon = s.lon ∧
  s'.distance = s.distance ∧ s'.altitude = s.altitude ∧
  s'.speed = s.speed ∧ s'.track = s.track ∧
  s'.aircraftType = s.aircraftType ∧ s'.aircraftName = s.aircraftName ∧
  s'.manufacturer = s.manufacturer ∧ s'.origin = s.origin ∧
  s'.destination = s.destination ∧ s'.icao = s.icao ∧
  s'.registration = s.registration

/-- A sample aircraft database with one Legacy 650 business jet whose
type code `E35L` has no friendly-name table entry. -/
def db0 : AircraftDB := fun h =>
  if h = "abc123" then
    some { type := "E35L", registration := "N650GD",
           manufacturer := "Embraer", model := "Legacy 650" }
  else none

/-- A sample distance function standing for `calculateDistance`. -/
def dfun : ℚ → ℚ → ℚ → ℚ → ℚ := fun _ _ _ _ => 0

/-- A commercial flight observed 2 NM out (outside a 0.70 NM zone). -/
def exFlightFar : Flight :=
  { icao := "a1b2c3", lat := 1, lon := 1, heading := 90, altitude := 5000,
    speed := 120, squawk := "1200", radar := "T", aircraftType := "B738",
    registration := "", timestamp := 1, origin := "SEA", destination := "LAX",
    flightNumber := "AS416", onGround := false, verticalRate := 0,
    callsign := "ASA416", distance := 2 }

/-- A business jet whose raw feed entry has no type code; enrichment
fills the type `E35L`, which equals its callsign. -/
def exFlightE35L : Flight :=
  { icao := "abc123", lat := 1, lon := 1, heading := 0, altitude := 1000,
    speed := 100, squawk := "", radar := "F", aircraftType := "",
    registration := "N650GD", timestamp := 5, origin := "", destination := "",
    flightNumber := "", onGround := false, verticalRate := 0,
    callsign := "E35L", distance := 2 }

/-- The active path after recording one snapshot of `exFlightE35L`. -/
def path9 : List Snapshot := recordPathSnapshot db0 0 exFlightE35L []

/-- A configuration with the default 0.70 NM radius. -/
def cfg0 : Config := { lat := 0, lon := 0, radiusNm := 0.70 }

/-- Formatted data of the two sample flights (never evaluated, only
carried by the display state). -/
def fmt0 : FormattedFlight := formatFlight db0 exFlightE35L

/-- Formatted data of the far sample flight. -/
def fmt1 : FormattedFlight := formatFlight db0 exFlightFar

/-- A display state mid-rotation: started, then two timer ticks, so the
timer is running and the current screen index is 2. -/
def ds4 : DisplayState :=
  (rotationTick cfg0 (rotationTick cfg0
    (startScreenRotation cfg0 fmt0 initialDisplay).1).1).1

/-- A tracker state in the middle of tracking `E35L`: one path snapshot,
rotation running, last export long ago. -/
def st5 : TrackerState :=
  { lastFlightCallsign := some "E35L", flightHistory := [],
    activeFlightPath := path9, lastWebExport := 0,
    lastFlightSeen := some 0, display := ds4, webStore := none }

/-- The same tracking state with the export throttle open (the last
export stamped far in the past relative to the instant used). -/
def st9 : TrackerState :=
  { lastFlightCallsign := some "E35L", flightHistory := [],
    activeFlightPath := path9, lastWebExport := 0,
    lastFlightSeen := some 0, display := initialDisplay, webStore := none }

/-- A raw feed entry that is airborne, complete (17 fields) and would be
within any positive radius, but whose latitude is exactly 0. -/
def it0 : RawItem :=
  { icao := "abcdef", lat := some 0, lon := some 5, heading := 0,
    altitude := 1000, speed := 100, squawk := "", radar := "F",
    aircraftType := "B738", registration := "", timestamp := 1,
    origin := "JFK", destination := "LAX", flightNumber := "UA1",
    onGround := false, verticalRate := 0, callsign := "UAL1", arity := 17 }

/-- A snapshot literal used to fill buffers in witnesses. -/
def s0 : Snapshot :=
  { timestamp := 0, callsign := "UAL1", lat := 1, lon := 1, distance := 3,
    altitude := 10000, speed := 250, track := none, aircraftType := "B738",
    aircraftName := some "737", manufacturer := none, origin := "JFK",
    destination := "LAX", icao := "abcdef", registration := "" }


-- ===========================================================================
-- Theorems
-- ===========================================================================

theorem byDistance_trans (a b c : Flight) :
    byDistance a b → byDistance b c → byDistance a c := by
  simp only [byDistance, decide_eq_true_eq]
  exact le_trans

theorem byDistance_total (a b : Flight) : byDistance a b || byDistance b a := by
  simp only [byDistance, Bool.or_eq_true, decide_eq_true_eq]
  exact le_total _ _

theorem mem_parse {dist : ℚ → ℚ → ℚ → ℚ → ℚ} {data : List RawItem}
    {cLat cLon r : ℚ} {f : Flight} :
    f ∈ parseFR24Flights dist data cLat cLon r ↔
      ∃ it ∈ data, keepFlight dist cLat cLon r it = some f := by
  simp [parseFR24Flights, List.mem_mergeSort, List.mem_filterMap]

theorem keepFlight_some_inv {dist : ℚ → ℚ → ℚ → ℚ → ℚ} {cLat cLon r : ℚ}
    {it : RawItem} {f : Flight}
    (h : keepFlight dist cLat cLon r it = some f) :
    17 ≤ it.arity ∧ it.onGround = false ∧ f.onGround = false ∧
    it.lat = some f.lat ∧ it.lon = some f.lon ∧ f.lat ≠ 0 ∧ f.lon ≠ 0 ∧
    f.distance = dist cLat cLon f.lat f.lon ∧ f.distance ≤ r := by
  unfold keepFlight at h
  split at h
  · exact absurd h (by simp)
  next h17 =>
    split at h
    · exact absurd h (by simp)
    next hg =>
      split at h
      next la lo hla hlo =>
        split at h
        next htr =>
          dsimp only at h
          split at h
          next hd =>
            injection h with hh
            subst hh
            simp only [numTruthy, ne_eq, decide_eq_true_eq] at htr
            exact ⟨by omega, by simpa using hg, by simpa using hg,
              hla, hlo, htr.1, htr.2, rfl, hd⟩
          · exact absurd h (by simp)
        · exact absurd h (by simp)
      · exact absurd h (by simp)
      · exact absurd h (by simp)

theorem keepFlight_none_of_bad {dist : ℚ → ℚ → ℚ → ℚ → ℚ} {cLat cLon r : ℚ}
    {it : RawItem}
    (h : it.onGround = true ∨ it.lat = none ∨ it.lon = none ∨
         it.lat = some 0 ∨ it.lon = some 0) :
    keepFlight dist cLat cLon r it = none := by
  by_cases h17 : it.arity < 17
  · simp [keepFlight, h17]
  rcases h with hg | hl | hl | hl | hl
  · simp [keepFlight, h17, hg]
  all_goals
    simp only [keepFlight, h17, if_false]
    split
    · rfl
    · cases hx : it.lat <;> cases hy : it.lon <;> simp_all [numTruthy]

theorem parse_sorted (dist : ℚ → ℚ → ℚ → ℚ → ℚ) (data : List RawItem)
    (cLat cLon r : ℚ) :
    (parseFR24Flights dist data cLat cLon r).Pairwise
      (fun a b => a.distance ≤ b.distance) := by
  have := List.sorted_mergeSort byDistance_trans byDistance_total
    (data.filterMap (keepFlight dist cLat cLon r))
  exact this.imp (by simp [byDistance])

theorem parse_perm (dist : ℚ → ℚ → ℚ → ℚ → ℚ) (data : List RawItem)
    (cLat cLon r : ℚ) :
    (parseFR24Flights dist data cLat cLon r).Perm
      (data.filterMap (keepFlight dist cLat cLon r)) :=
  List.mergeSort_perm _ _

theorem parse_stable (dist : ℚ → ℚ → ℚ → ℚ → ℚ) (data : List RawItem)
    (cLat cLon r : ℚ) (a b : Flight)
    (hs : [a, b].Sublist (data.filterMap (keepFlight dist cLat cLon r)))
    (hab : a.distance ≤ b.distance) :
    [a, b].Sublist (parseFR24Flights dist data cLat cLon r) :=
  List.pair_sublist_mergeSort byDistance_trans byDistance_total
    (by simpa [byDistance] using hab) hs

theorem calculateDistance_radius (lat1 lon1 lat2 lon2 : ℝ) :
    calculateDistance lat1 lon1 lat2 lon2 =
      3440.065 * haversineAngle lat1 lon1 lat2 lon2 := rfl

theorem calculateDistance_self (lat lon : ℝ) :
    calculateDistance lat lon lat lon = 0 := by
  unfold calculateDistance
  have h0 : toRad (lat - lat) = 0 := by simp [toRad]
  have h1 : toRad (lon - lon) = 0 := by simp [toRad]
  have h2 : jsAtan2 0 1 = 0 := by
    have h3 : Complex.mk 1 0 = (1 : ℂ) := by
      apply Complex.ext <;> simp
    simp [jsAtan2, h3, Complex.arg_one]
  rw [h0, h1]
  norm_num [h2]

/-- Claim C2: the snapshot filter discards grounded aircraft and
observations missing coordinates, computes each kept observation's
distance from the center with the canonical distance function (which is
3440.065 NM times the haversine central angle and vanishes at the
center), keeps only observations with distance ≤ radius, and returns the
remainder sorted ascending by distance with ties broken by input order. -/
theorem parseFR24Flights_spec (dist : ℚ → ℚ → ℚ → ℚ → ℚ)
    (data : List RawItem) (cLat cLon r : ℚ) :
    (∀ f ∈ parseFR24Flights dist data cLat cLon r,
       f.onGround = false ∧ f.lat ≠ 0 ∧ f.lon ≠ 0 ∧
       f.distance = dist cLat cLon f.lat f.lon ∧ f.distance ≤ r) ∧
    (∀ it ∈ data,
       (it.onGround = true ∨ it.lat = none ∨ it.lon = none) →
       keepFlight dist cLat cLon r it = none) ∧
    (parseFR24Flights dist data cLat cLon r).Pairwise
      (fun a b => a.distance ≤ b.distance) ∧
    (parseFR24Flights dist data cLat cLon r).Perm
      (data.filterMap (keepFlight dist cLat cLon r)) ∧
    (∀ a b : Flight,
       [a, b].Sublist (data.filterMap (keepFlight dist cLat cLon r)) →
       a.distance ≤ b.distance →
       [a, b].Sublist (parseFR24Flights dist data cLat cLon r)) ∧
    (∀ lat1 lon1 lat2 lon2 : ℝ,
       calculateDistance lat1 lon1 lat2 lon2 =
         3440.065 * haversineAngle lat1 lon1 lat2 lon2) ∧
    (∀ lat lon : ℝ, calculateDistance lat lon lat lon = 0) := by
  refine ⟨?_, ?_, parse_sorted dist data cLat cLon r,
    parse_perm dist data cLat cLon r, parse_stable dist data cLat cLon r,
    fun a b c d => calculateDistance_radius a b c d,
    fun a b => calculateDistance_self a b⟩
  · intro f hf
    obtain ⟨it, hit, hk⟩ := mem_parse.mp hf
    obtain ⟨h1, h2, h3, h4, h5, h6, h7, h8, h9⟩ := keepFlight_some_inv hk
    exact ⟨h3, h6, h7, h8, h9⟩
  · intro it hit hbad
    exact keepFlight_none_of_bad (by tauto)

/-- Claim C10: an observation whose latitude or longitude is exactly 0 is
excluded by the coordinate truthiness test, and contributes nothing to the
filter output wherever it appears in the feed. -/
theorem zero_coordinate_excluded (dist : ℚ → ℚ → ℚ → ℚ → ℚ)
    (data₁ data₂ : List RawItem) (cLat cLon r : ℚ) (it : RawItem)
    (h : it.lat = some 0 ∨ it.lon = some 0) :
    keepFlight dist cLat cLon r it = none ∧
    parseFR24Flights dist (data₁ ++ it :: data₂) cLat cLon r =
      parseFR24Flights dist (data₁ ++ data₂) cLat cLon r := by
  have hk : keepFlight dist cLat cLon r it = none :=
    keepFlight_none_of_bad (by tauto)
  refine ⟨hk, ?_⟩
  unfold parseFR24Flights
  simp [List.filterMap_append, List.filterMap_cons, hk]

/-- Witness for C10 at a concrete airborne, complete, in-range feed entry
with latitude exactly 0. -/
theorem zero_coordinate_excluded_witness :
    keepFlight dfun 0 0 1 it0 = none ∧
    parseFR24Flights dfun ([] ++ it0 :: []) 0 0 1 =
      parseFR24Flights dfun ([] ++ []) 0 0 1 :=
  zero_coordinate_excluded dfun [] [] 0 0 1 it0 (Or.inl rfl)

/-- Counterexample to claim C1 as stated: `trackFlight` of
`tracker-v2.mjs` has no radius guard, so a snapshot with no existing
session and distance 2 NM (beyond the configured 0.70 NM) creates a
session. -/
theorem trackFlightV2_creates_session_outside_zone :
    hget [] "ASA416" = none ∧
    exFlightFar.distance > 0.70 ∧
    (trackFlight 0 exFlightFar []).2 = [("ASA416", newSession 0 exFlightFar)] := by
  refine ⟨rfl, by norm_num [exFlightFar], ?_⟩
  rfl

/-- Claim C1 amended: in `tracker.mjs` the guard holds — a snapshot with
no session and distance beyond the radius leaves the table unchanged; in
`tracker-v2.mjs` the guard lives in the snapshot filter instead — every
flight it hands to `trackFlight` already has distance ≤ radius. -/
theorem trackFlight_outside_zone_amended (r now : ℚ) (f : Flight)
    (h : History) (dist : ℚ → ℚ → ℚ → ℚ → ℚ) (data : List RawItem)
    (cLat cLon : ℚ) :
    (hget h f.callsign = none → f.distance > r → trackFlightV1 r now f h = h) ∧
    (∀ g ∈ parseFR24Flights dist data cLat cLon r, g.distance ≤ r) := by
  constructor
  · intro h0 hd
    unfold trackFlightV1
    rw [h0]
    simp [hd]
  · intro g hg
    obtain ⟨it, hit, hk⟩ := mem_parse.mp hg
    exact (keepFlight_some_inv hk).2.2.2.2.2.2.2.2

theorem exportBuild_shape (fl : Bool) (now : ℚ) (st : TrackerState)
    (idx : Option ℕ) (cf : ClosestRec) :
    ∃ p w, (exportBuild fl now st idx cf).1 =
      { st with activeFlightPath := p, webStore := w } := by
  unfold exportBuild
  exact ⟨_, _, rfl⟩

theorem exportCore_shape (cfg : Config) (fl : Bool) (now : ℚ)
    (st : TrackerState) :
    ∃ p w, (exportCore cfg fl now st).1 =
      { st with lastWebExport := now, activeFlightPath := p, webStore := w } := by
  unfold exportCore
  dsimp only
  split
  · exact exportBuild_shape ..
  · split
    · exact exportBuild_shape ..
    · exact ⟨st.activeFlightPath, some (.waiting now), rfl⟩

theorem exportWebData_throttled (cfg : Config) (fl : Bool) (now : ℚ)
    (st : TrackerState)
    (h : fl = false ∧ now - st.lastWebExport < 5000) :
    exportWebData cfg fl now st = (st, none) := by
  unfold exportWebData
  rw [if_pos]
  exact ⟨by simp [h.1], h.2⟩

theorem exportWebData_not_throttled (cfg : Config) (fl : Bool) (now : ℚ)
    (st : TrackerState)
    (h : fl = true ∨ 5000 ≤ now - st.lastWebExport) :
    exportWebData cfg fl now st =
      ((exportCore cfg fl now st).1, some (exportCore cfg fl now st).2) := by
  unfold exportWebData
  rw [if_neg]
  rintro ⟨h1, h2⟩
  rcases h with h | h
  · exact h1 (by simp [h])
  · exact absurd h (not_le.mpr h2)

/-- Claim C3: `exportWebData` writes to the export store iff `forceFlush`
is true or at least 5 seconds (5000 ms) have elapsed since the last
export; with `forceFlush` it always writes immediately and stamps the
export clock. -/
theorem exportWebData_throttle_spec (cfg : Config) (force : Bool)
    (now : ℚ) (st : TrackerState) :
    ((exportWebData cfg force now st).2.isSome = true ↔
      (force = true ∨ 5000 ≤ now - st.lastWebExport)) ∧
    (force = true →
      (exportWebData cfg force now st).2.isSome = true ∧
      (exportWebData cfg force now st).1.lastWebExport = now) := by
  by_cases hc : force = true ∨ 5000 ≤ now - st.lastWebExport
  · rw [exportWebData_not_throttled cfg force now st hc]
    obtain ⟨p, w, hshape⟩ := exportCore_shape cfg force now st
    simp [hc, hshape]
  · push_neg at hc
    obtain ⟨h1, h2⟩ := hc
    rw [exportWebData_throttled cfg force now st
      ⟨by simpa using h1, by linarith⟩]
    simp [h1, not_le.mpr (by linarith : now - st.lastWebExport < 5000)]

/-- Counterexample to claim C4 as stated: refreshing an active rotation
resets the current screen index — from a reachable mid-rotation state at
screen index 2, calling `startScreenRotation` again sets the index to 0
(the spec says the index is not reset). -/
theorem startScreenRotation_resets_screen_index :
    ds4.timer = some 0 ∧ ds4.currentScreenIndex = 2 ∧
    (startScreenRotation cfg0 fmt1 ds4).1.currentScreenIndex = 0 ∧
    (startScreenRotation cfg0 fmt1 ds4).1.timer = some 0 :=
  ⟨rfl, rfl, rfl, rfl⟩

/-- Claim C4 amended: starting rotation while the timer is already
running replaces only the latest flight view and resets the screen index
to 0; the running interval timer is kept (no second timer is created, the
fresh-timer counter does not advance) and nothing is sent to the device
in that call. -/
theorem startScreenRotation_active_refresh (cfg : Config)
    (data : FormattedFlight) (ds : DisplayState) (t : ℕ)
    (ht : ds.timer = some t) :
    (startScreenRotation cfg data ds).1.timer = some t ∧
    (startScreenRotation cfg data ds).1.nextTimerId = ds.nextTimerId ∧
    (startScreenRotation cfg data ds).1.latestFlightData = some data ∧
    (startScreenRotation cfg data ds).1.currentScreenIndex = 0 ∧
    (startScreenRotation cfg data ds).2 = [] := by
  unfold startScreenRotation
  rw [ht]
  simp

/-- Witness for the amended C4 at the concrete mid-rotation state. -/
theorem startScreenRotation_active_refresh_witness :
    (startScreenRotation cfg0 fmt1 ds4).1.timer = some 0 ∧
    (startScreenRotation cfg0 fmt1 ds4).1.nextTimerId = ds4.nextTimerId ∧
    (startScreenRotation cfg0 fmt1 ds4).1.latestFlightData = some fmt1 ∧
    (startScreenRotation cfg0 fmt1 ds4).1.currentScreenIndex = 0 ∧
    (startScreenRotation cfg0 fmt1 ds4).2 = [] :=
  startScreenRotation_active_refresh cfg0 fmt1 ds4 0 rfl

theorem exportWebData_display (cfg : Config) (fl : Bool) (now : ℚ)
    (st : TrackerState) :
    (exportWebData cfg fl now st).1.display = st.display ∧
    (exportWebData cfg fl now st).1.lastFlightCallsign = st.lastFlightCallsign ∧
    (exportWebData cfg fl now st).1.flightHistory = st.flightHistory ∧
    (exportWebData cfg fl now st).1.lastFlightSeen = st.lastFlightSeen := by
  unfold exportWebData
  split
  · exact ⟨rfl, rfl, rfl, rfl⟩
  · obtain ⟨p, w, hshape⟩ := exportCore_shape cfg fl now st
    simp [hshape]

/-- Counterexample to claim C5 as stated: with a flight being tracked, a
failed fetch (which the client converts into an empty list) does not
leave the tracking state unchanged — it ends the session: the tracked
callsign is dropped, the active path is cleared and the rotation timer is
cancelled. -/
theorem pollCycle_fetch_fail_ends_session :
    st5.lastFlightCallsign = some "E35L" ∧
    st5.activeFlightPath ≠ [] ∧
    st5.display.timer = some 0 ∧
    (pollCycle cfg0 db0 dfun 6000 .fail st5).lastFlightCallsign = none ∧
    (pollCycle cfg0 db0 dfun 6000 .fail st5).activeFlightPath = [] ∧
    (pollCycle cfg0 db0 dfun 6000 .fail st5).display.timer = none := by
  refine ⟨rfl, by simp [st5, path9, recordPathSnapshot], rfl, rfl, rfl, rfl⟩

/-- Claim C5 amended: a fetch failure is caught inside the data-source
client and returned as an empty flight list, so the poll cycle proceeds
as a no-flights cycle rather than being abandoned: when nothing was being
tracked the whole state is left unchanged, but when a flight was being
tracked its session is terminated (callsign cleared, path cleared,
rotation stopped, last-seen stamped). -/
theorem pollCycle_fetch_fail_amended (cfg : Config) (db : AircraftDB)
    (dist : ℚ → ℚ → ℚ → ℚ → ℚ) (now : ℚ) (st : TrackerState) :
    (fetchFR24Flights dist .fail cfg.lat cfg.lon cfg.radiusNm = []) ∧
    (st.lastFlightCallsign = none → pollCycle cfg db dist now .fail st = st) ∧
    (∀ c, st.lastFlightCallsign = some c →
       (pollCycle cfg db dist now .fail st).lastFlightCallsign = none ∧
       (pollCycle cfg db dist now .fail st).activeFlightPath = [] ∧
       (pollCycle cfg db dist now .fail st).display = stopScreenRotation st.display ∧
       (pollCycle cfg db dist now .fail st).lastFlightSeen = some now) := by
  refine ⟨rfl, ?_, ?_⟩
  · intro h0
    unfold pollCycle fetchFR24Flights
    simp [h0]
  · intro c hc
    obtain ⟨hd, _, _, _⟩ := exportWebData_display cfg true now st
    unfold pollCycle fetchFR24Flights zoneClear
    simp [hc, hd]

theorem hget_hset (h : History) (k k' : String) (v : FlightSession) :
    hget (hset h k v) k' = if k = k' then some v else hget h k' := by
  induction h with
  | nil => simp only [hset, hget]
  | cons kv rest ih =>
    obtain ⟨a, b⟩ := kv
    simp only [hset]
    by_cases hak : a = k
    · rw [if_pos hak]
      subst hak
      by_cases h2 : a = k' <;> simp [hget, h2]
    · rw [if_neg hak]
      by_cases h2 : a = k'
      · have hkk' : ¬ k = k' := fun hkk' => hak (h2.trans hkk'.symm)
        simp [hget, h2, hkk']
      · simp [hget, h2, ih]

theorem updateSession_closest (now : ℚ) (f : Flight) (e : FlightSession) :
    ((updateSession now f e).closestDistance ≤ e.closestDistance) ∧
    (f.distance < e.closestDistance →
      (updateSession now f e).closestDistance = f.distance ∧
      (updateSession now f e).closestAltitude = f.altitude ∧
      (updateSession now f e).closestSpeed = f.speed) ∧
    (¬ f.distance < e.closestDistance →
      (updateSession now f e).closestDistance = e.closestDistance ∧
      (updateSession now f e).closestAltitude = e.closestAltitude ∧
      (updateSession now f e).closestSpeed = e.closestSpeed) := by
  unfold updateSession
  by_cases hlt : f.distance < e.closestDistance
  · simp [hlt]
    linarith
  · simp [hlt]

theorem trackFlight_mono_step (now : ℚ) (f : Flight) (h : History)
    (k : String) (e : FlightSession) (hk : hget h k = some e) :
    ∃ e', hget (trackFlight now f h).2 k = some e' ∧
      e'.closestDistance ≤ e.closestDistance := by
  unfold trackFlight
  dsimp only
  by_cases hkk : getBestCallsign f.callsign f.registration f.aircraftType = k
  · rw [hkk, hk]
    exact ⟨updateSession now { f with callsign := k } e,
      by rw [hget_hset]; simp,
      (updateSession_closest now _ e).1⟩
  · cases hh : hget h (getBestCallsign f.callsign f.registration f.aircraftType) with
    | some e2 =>
      exact ⟨e, by rw [hget_hset, if_neg hkk]; exact hk, le_refl _⟩
    | none =>
      exact ⟨e, by rw [hget_hset, if_neg hkk]; exact hk, le_refl _⟩

theorem runUpdates_mono (upds : List (ℚ × Flight)) (h : History)
    (k : String) (e : FlightSession) (hk : hget h k = some e) :
    ∃ e', hget (runUpdates upds h) k = some e' ∧
      e'.closestDistance ≤ e.closestDistance := by
  induction upds generalizing h e with
  | nil => exact ⟨e, hk, le_refl _⟩
  | cons u rest ih =>
    obtain ⟨e1, he1, hle1⟩ := trackFlight_mono_step u.1 u.2 h k e hk
    obtain ⟨e2, he2, hle2⟩ := ih _ _ he1
    exact ⟨e2, by simpa [runUpdates] using he2, le_trans hle2 hle1⟩

/-- Claim C6: a session's closest-distance never increases — one update
replaces closest-distance/altitude/speed exactly when the new distance is
strictly smaller, and over any sequence of `trackFlight` updates the
stored closest distance of an existing session is monotonically
non-increasing (and the session is never deleted). -/
theorem closestDistance_monotone (now : ℚ) (f : Flight) (e : FlightSession)
    (upds : List (ℚ × Flight)) (h : History) (k : String) :
    ((updateSession now f e).closestDistance ≤ e.closestDistance) ∧
    (f.distance < e.closestDistance →
      (updateSession now f e).closestDistance = f.distance ∧
      (updateSession now f e).closestAltitude = f.altitude ∧
      (updateSession now f e).closestSpeed = f.speed) ∧
    (¬ f.distance < e.closestDistance →
      (updateSession now f e).closestDistance = e.closestDistance ∧
      (updateSession now f e).closestAltitude = e.closestAltitude ∧
      (updateSession now f e).closestSpeed = e.closestSpeed) ∧
    (∀ e₀, hget h k = some e₀ →
      ∃ e₁, hget (runUpdates upds h) k = some e₁ ∧
        e₁.closestDistance ≤ e₀.closestDistance) := by
  obtain ⟨h1, h2, h3⟩ := updateSession_closest now f e
  exact ⟨h1, h2, h3, fun e₀ h0 => runUpdates_mono upds h k e₀ h0⟩

/-- Claim C7: the active path buffer never exceeds 100 entries, and
appending to a full buffer of 100 evicts exactly the oldest entry: the
result is the previous entries 2..100 followed by the new snapshot. -/
theorem activeFlightPath_bound (db : AircraftDB) (now : ℚ) (f : Flight)
    (path : List Snapshot) :
    (path.length ≤ 100 → (recordPathSnapshot db now f path).length ≤ 100) ∧
    (path.length = 100 →
      recordPathSnapshot db now f path = path.tail ++ [mkSnapshot db now f]) := by
  constructor
  · intro hle
    unfold recordPathSnapshot
    dsimp only
    split
    · next hgt =>
        simp only [List.length_tail, List.length_append, List.length_cons,
          List.length_nil]
        omega
    · next hng =>
        simp only [List.length_append, List.length_cons, List.length_nil] at hng ⊢
        omega
  · intro h100
    unfold recordPathSnapshot
    dsimp only
    rw [if_pos (by simp [List.length_append, h100])]
    cases path with
    | nil => simp at h100
    | cons a rest => simp

/-- Claim C8: the proximity tier is A below 0.43·r, B below 0.71·r, C
otherwise (both for the hex color and the RGB triple), the progress-bar
fill is `round((1 − clamp(d,0,r)/r) × 100)` for any positive radius, and
in particular at r = 0.70, d = 0.30 the tier is A and the progress 57. -/
theorem proximity_tier_progress_spec (cfg : Config) (d : ℚ) :
    (getProximityColor cfg d = tierColor (specProximityTier cfg.radiusNm d)) ∧
    (getProximityColorRGB cfg d = tierRGB (specProximityTier cfg.radiusNm d)) ∧
    (0 < cfg.radiusNm →
      getProximityProgress cfg d = specProgress cfg.radiusNm d) ∧
    (specProximityTier 0.70 0.30 = .A) ∧
    (getProximityColor cfg0 0.30 = "#FF0000") ∧
    (getProximityProgress cfg0 0.30 = 57) := by
  have e1 : cfg.radiusNm * (0.43 : ℚ) = 0.43 * cfg.radiusNm := mul_comm _ _
  have e2 : cfg.radiusNm * (0.71 : ℚ) = 0.71 * cfg.radiusNm := mul_comm _ _
  refine ⟨?_, ?_, ?_, by norm_num [specProximityTier],
    by norm_num [getProximityColor, cfg0],
    by norm_num [getProximityProgress, cfg0, jsRound]⟩
  · unfold getProximityColor specProximityTier
    dsimp only
    rw [e1, e2]
    split_ifs <;> rfl
  · unfold getProximityColorRGB specProximityTier
    dsimp only
    rw [e1, e2]
    split_ifs <;> rfl
  · intro hr
    unfold getProximityProgress specProgress
    dsimp only
    have hcl : max 0 (min cfg.radiusNm d) = min (max d 0) cfg.radiusNm := by
      simp only [min_def, max_def]
      split_ifs <;> linarith
    rw [hcl]

theorem sameExceptCallsign_refl (s : Snapshot) : sameExceptCallsign s s := by
  simp [sameExceptCallsign]

theorem setCallsignAt_forall2 (p : List Snapshot) (i : ℕ) (c : String) :
    List.Forall₂ sameExceptCallsign p (setCallsignAt p i c) := by
  induction p generalizing i with
  | nil => simp [setCallsignAt]
  | cons a rest ih =>
    cases i with
    | zero =>
      refine List.Forall₂.cons ?_ ?_
      · simp [sameExceptCallsign]
      · exact List.forall₂_same.mpr (fun s _ => sameExceptCallsign_refl s)
    | succ j => exact List.Forall₂.cons (sameExceptCallsign_refl a) (ih j)

theorem exportBuild_path (fl : Bool) (now : ℚ) (st : TrackerState)
    (idx : Option ℕ) (cf : ClosestRec) :
    (exportBuild fl now st idx cf).1.activeFlightPath = st.activeFlightPath ∨
    ∃ i c, idx = some i ∧
      (exportBuild fl now st idx cf).1.activeFlightPath =
        setCallsignAt st.activeFlightPath i c := by
  unfold exportBuild
  dsimp only
  split
  · cases idx with
    | some i => exact Or.inr ⟨i, _, rfl, rfl⟩
    | none => exact Or.inl rfl
  · exact Or.inl rfl

theorem exportCore_path (cfg : Config) (fl : Bool) (now : ℚ)
    (st : TrackerState) :
    (exportCore cfg fl now st).1.activeFlightPath = st.activeFlightPath ∨
    ∃ i s c, scanClosest st.activeFlightPath = some (i, s) ∧
      (exportCore cfg fl now st).1.activeFlightPath =
        setCallsignAt st.activeFlightPath i c := by
  unfold exportCore
  dsimp only
  split
  · next im hsc =>
      rcases exportBuild_path fl now _ (some im.1) _ with hp | ⟨i, c, hidx, hp⟩
      · exact Or.inl hp
      · obtain rfl : im.1 = i := by injection hidx
        exact Or.inr ⟨im.1, im.2, c, by rw [← hsc], hp⟩
  · split
    · next f hf =>
        rcases exportBuild_path fl now _ none _ with hp | ⟨i, c, hidx, hp⟩
        · exact Or.inl hp
        · exact absurd hidx (by simp)
    · exact Or.inl rfl

/-- Claim C9 amended: stored snapshots are immutable with one exception —
when `exportWebData` re-resolves the best callsign and it differs, it
rewrites the `callsign` field of the aliased closest snapshot in the
active path; every other field of every stored snapshot is untouched
(and `recordPathSnapshot` only appends/evicts, never rewrites). -/
theorem snapshot_mutation_frame (cfg : Config) (force : Bool) (now : ℚ)
    (st : TrackerState) (db : AircraftDB) (f : Flight) :
    ((exportWebData cfg force now st).1.activeFlightPath = st.activeFlightPath ∨
     ∃ i s c, scanClosest st.activeFlightPath = some (i, s) ∧
       (exportWebData cfg force now st).1.activeFlightPath =
         setCallsignAt st.activeFlightPath i c) ∧
    List.Forall₂ sameExceptCallsign st.activeFlightPath
      (exportWebData cfg force now st).1.activeFlightPath ∧
    (recordPathSnapshot db now f st.activeFlightPath).Sublist
      (st.activeFlightPath ++ [mkSnapshot db now f]) := by
  have hshape :
      (exportWebData cfg force now st).1.activeFlightPath = st.activeFlightPath ∨
      ∃ i s c, scanClosest st.activeFlightPath = some (i, s) ∧
        (exportWebData cfg force now st).1.activeFlightPath =
          setCallsignAt st.activeFlightPath i c := by
    unfold exportWebData
    split
    · exact Or.inl rfl
    · exact exportCore_path cfg force now st
  refine ⟨hshape, ?_, ?_⟩
  · rcases hshape with hp | ⟨i, s, c, hsc, hp⟩
    · rw [hp]
      exact List.forall₂_same.mpr (fun s _ => sameExceptCallsign_refl s)
    · rw [hp]
      exact setCallsignAt_forall2 st.activeFlightPath i c
  · unfold recordPathSnapshot
    dsimp only
    split
    · exact List.tail_sublist _
    · exact List.Sublist.refl _

/-- Counterexample to claim C9 as stated: a snapshot recorded into the
active path via `recordPathSnapshot` is later mutated by `exportWebData`
— identity re-resolution (the enriched type name now equals the stored
callsign) rewrites the stored snapshot's callsign from `E35L` to its
registration `N650GD`. -/
theorem exportWebData_mutates_snapshot_callsign :
    st9.activeFlightPath = recordPathSnapshot db0 0 exFlightE35L [] ∧
    st9.activeFlightPath.map (fun s => s.callsign) = ["E35L"] ∧
    (exportWebData cfg0 false 6000 st9).1.activeFlightPath.map
      (fun s => s.callsign) = ["N650GD"] := by
  refine ⟨rfl, rfl, ?_⟩
  rw [exportWebData_not_throttled cfg0 false 6000 st9
    (Or.inr (by norm_num [st9]))]
  rfl
